import Mathlib

/-!
Shallow embedding of `src/script.js`, the interaction controller of the
Nexus AI landing page.  Each event handler of the source becomes an
explicit state-transition function over a record of the DOM flags it
reads and writes; DOM elements that the source may find absent are
represented with `Option`, and a handler that would throw a `TypeError`
returns `none`.
-/

namespace NexusLanding

/-- DOM-backed state of the mobile menu in the configuration where both
required elements exist (`initMobileMenu`, script.js 26-63, attaches its
listeners only then, and then the `keydown` listener of
`initKeyboardNavigation`, 176-184, never dereferences a null element).

* `menuActive`        : `navLinks.classList.contains("active")` — this class
  is also the menu-open flag the code reads (`const isActive = ...`, line 30)
* `toggleActive`      : `mobileMenuToggle.classList.contains("active")`
* `ariaExpanded`      : the toggle's `aria-expanded` attribute, as a Bool
* `overflowHidden`    : whether `document.body.style.overflow` is `"hidden"`
* `focusMovedToToggle`: whether the script has called
  `mobileMenuToggle.focus()` (line 182) -/
structure MenuState where
  menuActive : Bool
  toggleActive : Bool
  ariaExpanded : Bool
  overflowHidden : Bool
  focusMovedToToggle : Bool
deriving DecidableEq, Repr

/-- The open/close triggers wired in `initMobileMenu` and
`initKeyboardNavigation`.  `outsideClick` is a document click that is
neither inside `navLinks` nor on the toggle (the guard
`!isClickInsideNav && !isClickOnToggle` of line 56 already holds);
`escapeKey` is a keydown with `e.key === "Escape"`. -/
inductive MenuEvent where
  | toggleClick
  | navLinkClick
  | outsideClick
  | escapeKey
deriving DecidableEq, Repr

/-- The closing mutation, identical at script.js 44-47, 57-60 and 178-181:
remove both "active" classes, set `aria-expanded` to "false", restore
`document.body.style.overflow` to the empty string. -/
def closeMenu (s : MenuState) : MenuState :=
  { s with menuActive := false, toggleActive := false,
           ariaExpanded := false, overflowHidden := false }

/-- One trigger processed by the listeners of script.js.

* `toggleClick` (29-39): read `isActive`, toggle both "active" classes,
  set `aria-expanded` to `!isActive`, set body overflow to `"hidden"` exactly
  when the menu was not active.
* `navLinkClick` (42-49): unconditionally perform the closing mutation.
* `outsideClick` (52-62): close only if `navLinks` has class "active".
* `escapeKey` (176-184): if the menu is active, close and additionally call
  `mobileMenuToggle.focus()`. -/
def menuStep (s : MenuState) : MenuEvent → MenuState
  | .toggleClick =>
      let isActive := s.menuActive
      { s with menuActive := !s.menuActive,
               toggleActive := !s.toggleActive,
               ariaExpanded := !isActive,
               overflowHidden := !isActive }
  | .navLinkClick => closeMenu s
  | .outsideClick => if s.menuActive then closeMenu s else s
  | .escapeKey =>
      if s.menuActive then { closeMenu s with focusMovedToToggle := true }
      else s

/-- The consistent closed state at page load: no "active" classes, the menu
markup starts with `aria-expanded` unset/false, body scroll unlocked. -/
def initClosed : MenuState :=
  ⟨false, false, false, false, false⟩

/-- Run a sequence of triggers from a state. -/
def runMenu (s : MenuState) (evts : List MenuEvent) : MenuState :=
  evts.foldl menuStep s

/-- The menu-open flag, both "active" classes, the `aria-expanded`
attribute and the body scroll-lock all agree (the flag is
`menuActive` itself, since the code reads it back from the class). -/
def consistentMenu (s : MenuState) : Prop :=
  s.menuActive = s.toggleActive ∧ s.menuActive = s.ariaExpanded ∧
    s.menuActive = s.overflowHidden

instance (s : MenuState) : Decidable (consistentMenu s) := by
  unfold consistentMenu; infer_instance

/-- The `mobileMenuToggle` element for the nullable-element model:
its "active" class, its `aria-expanded` attribute, and whether the script
has focused it. -/
structure ToggleElem where
  active : Bool
  ariaExpanded : Bool
  focused : Bool
deriving DecidableEq, Repr

/-- The page as seen by the `keydown` listener of `initKeyboardNavigation`
(script.js 176-184), with possibly-null elements:
`navLinks` is `some a` when the element exists with "active"-class flag `a`,
`none` when `getElementById` returned null; likewise `mobileMenuToggle`. -/
structure Page where
  navLinks : Option Bool
  mobileMenuToggle : Option ToggleElem
  overflowHidden : Bool
deriving DecidableEq, Repr

/-- The Escape branch of the `keydown` listener (script.js 176-184), which
is attached unconditionally.  The guard is
`e.key === "Escape" && navLinks && navLinks.classList.contains("active")`;
the body then dereferences `mobileMenuToggle` with no null check.
Returns `none` when the handler throws (the `TypeError` from
`mobileMenuToggle.classList.remove` on null, line 179). -/
def keydownEscape (p : Page) (key : String) : Option Page :=
  if key = "Escape" ∧ p.navLinks = some true then
    match p.mobileMenuToggle with
    | none => none
    | some _ =>
        some { navLinks := some false,
               mobileMenuToggle :=
                 some { active := false, ariaExpanded := false, focused := true },
               overflowHidden := false }
  else some p

/-- The `keydown` listener on `navLinks` (focus trap, script.js 192-211).
`focusables` is the element list computed once at setup (lines 188-190),
`activeElement` is `document.activeElement`; elements are identified by
numeric ids.  `focusables.get? 0` and `focusables.get? (length - 1)` model
`focusableElements[0]` and `focusableElements[length - 1]` (undefined on an
empty list).  Returns whether `e.preventDefault()` was called and which
element, if any, received an explicit `.focus()` call. -/
def trapKeydown (menuActive : Bool) (focusables : List Nat) (activeElement : Nat)
    (key : String) (shiftKey : Bool) : Bool × Option Nat :=
  if ¬ menuActive then (false, none)
  else
    let firstElement := focusables.get? 0
    let lastElement := focusables.get? (focusables.length - 1)
    if key = "Tab" then
      if shiftKey then
        if some activeElement = firstElement then (true, lastElement)
        else (false, none)
      else
        if some activeElement = lastElement then (true, firstElement)
        else (false, none)
    else (false, none)

/-- The per-anchor click handler of `initSmoothScroll` (script.js 130-150).
`querySelector` maps a selector string to the target element's
`getBoundingClientRect().top` when a match exists; `pageYOffset` is the
current vertical scroll offset; `href` is the anchor's href attribute.
Returns whether `e.preventDefault()` was called and, when a scroll was
requested, the `top` argument of `window.scrollTo`
(`elementPosition + window.pageYOffset - headerOffset` with
`headerOffset = 80`, lines 141-148). -/
def smoothScrollClick (querySelector : String → Option Int) (pageYOffset : Int)
    (href : String) : Bool × Option Int :=
  if href = "#" ∨ href = "" then (false, none)
  else
    match querySelector href with
    | some elementPosition => (true, some (elementPosition + pageYOffset - 80))
    | none => (false, none)

/-- `const scrollThreshold = 50` (script.js 72). -/
def scrollThreshold : Nat := 50

/-- State owned by `initNavbarScroll`: the "scrolled" class on the navbar
and the `lastScroll` variable (script.js 71). -/
structure NavbarState where
  scrolled : Bool
  lastScroll : Nat
deriving DecidableEq, Repr

/-- The scroll listener of `initNavbarScroll` (script.js 74-85): add the
"scrolled" class when `currentScroll > scrollThreshold`, remove it
otherwise, then store `lastScroll = currentScroll`. -/
def navbarScrollStep (s : NavbarState) (currentScroll : Nat) : NavbarState :=
  { scrolled := if currentScroll > scrollThreshold then true else false,
    lastScroll := currentScroll }

/-- `classList.add("visible")`: append the element unless the class is
already present (a class list holds each class once). -/
def addClassVisible (visible : List Nat) (e : Nat) : List Nat :=
  if e ∈ visible then visible else visible ++ [e]

/-- State of the reveal-on-scroll subsystem: which animatable elements carry
the "visible" class, and which are currently observed by the
IntersectionObserver. -/
structure RevealState where
  visible : List Nat
  observed : List Nat
deriving DecidableEq, Repr

/-- Events touching the reveal subsystem.

* `intersect target isIntersecting`: one entry delivered to the observer
  callback (script.js 108-116).
* `initialCheck elems isInViewport`: the deferred `checkInitialView`
  (script.js 249-257); `elems` are the elements matching
  ".fade-in, .fade-in-up" and `isInViewport` the viewport test of line 252.
* `scroll`: a scroll event — its listener (script.js 74-85) touches no
  reveal state. -/
inductive RevealEvent where
  | intersect (target : Nat) (isIntersecting : Bool)
  | initialCheck (elems : List Nat) (isInViewport : Nat → Bool)
  | scroll

/-- One reveal event.  The observer callback adds "visible" and unobserves
on `isIntersecting`; `checkInitialView` adds "visible" to every candidate in
the viewport and does not unobserve; a scroll event changes nothing here. -/
def revealStep (s : RevealState) : RevealEvent → RevealState
  | .intersect target isIntersecting =>
      if isIntersecting then
        { visible := addClassVisible s.visible target,
          observed := s.observed.erase target }
      else s
  | .initialCheck elems isInViewport =>
      { s with
          visible :=
            elems.foldl
              (fun v e => if isInViewport e then addClassVisible v e else v)
              s.visible }
  | .scroll => s

/-- Run a sequence of reveal events from a state. -/
def runReveal (s : RevealState) (evts : List RevealEvent) : RevealState :=
  evts.foldl revealStep s

/-- `initScrollAnimations` (script.js 91-123): given whether
`IntersectionObserver` exists in the environment and the elements matching
".fade-in, .fade-in-up", produce the resulting reveal state and whether an
observer was created.  Without the observer (lines 93-99) every candidate
gets the "visible" class immediately and no observer exists; with it
(lines 108-122) every candidate is observed and none is visible yet. -/
def initScrollAnimations (hasIntersectionObserver : Bool)
    (animatedElements : List Nat) : RevealState × Bool :=
  if ¬ hasIntersectionObserver then
    ({ visible := animatedElements.foldl addClassVisible [], observed := [] },
     false)
  else
    ({ visible := [], observed := animatedElements }, true)

/-! ## Helper lemmas -/

theorem mem_addClassVisible (v : List Nat) (e x : Nat) (h : x ∈ v) :
    x ∈ addClassVisible v e := by
  unfold addClassVisible
  split
  · exact h
  · exact List.mem_append_left _ h

theorem mem_addClassVisible_self (v : List Nat) (e : Nat) :
    e ∈ addClassVisible v e := by
  unfold addClassVisible
  split
  · assumption
  · simp

theorem mem_foldl_addClassVisible (l : List Nat) :
    ∀ (v : List Nat) (x : Nat), x ∈ v ∨ x ∈ l →
      x ∈ l.foldl addClassVisible v := by
  induction l with
  | nil =>
      intro v x h
      rcases h with h | h
      · exact h
      · simp at h
  | cons e tl ih =>
      intro v x h
      simp only [List.foldl]
      apply ih
      rcases h with h | h
      · exact Or.inl (mem_addClassVisible v e x h)
      · rcases List.mem_cons.mp h with h2 | h2
        · exact Or.inl (h2 ▸ mem_addClassVisible_self v e)
        · exact Or.inr h2

theorem mem_foldl_condAdd (f : Nat → Bool) (l : List Nat) :
    ∀ (v : List Nat) (x : Nat), x ∈ v →
      x ∈ l.foldl (fun v e => if f e then addClassVisible v e else v) v := by
  induction l with
  | nil => intro v x h; exact h
  | cons e tl ih =>
      intro v x h
      simp only [List.foldl]
      apply ih
      split
      · exact mem_addClassVisible v e x h
      · exact h

theorem consistentMenu_menuStep (s : MenuState) (e : MenuEvent)
    (h : consistentMenu s) : consistentMenu (menuStep s e) := by
  obtain ⟨m, t, a, o, f⟩ := s
  obtain ⟨h1, h2, h3⟩ := h
  simp only [consistentMenu] at h1 h2 h3
  subst h1; subst h2; subst h3
  cases e <;> cases m <;> cases f <;> decide

theorem mem_visible_revealStep (s : RevealState) (evt : RevealEvent) (x : Nat)
    (h : x ∈ s.visible) : x ∈ (revealStep s evt).visible := by
  cases evt with
  | intersect t i =>
      cases i
      · simpa [revealStep] using h
      · simpa [revealStep] using mem_addClassVisible s.visible t x h
  | initialCheck elems inV =>
      simpa [revealStep] using mem_foldl_condAdd inV elems s.visible x h
  | scroll => exact h

theorem mem_visible_runReveal (evts : List RevealEvent) :
    ∀ (s : RevealState) (x : Nat), x ∈ s.visible →
      x ∈ (runReveal s evts).visible := by
  induction evts with
  | nil => intro s x h; exact h
  | cons e tl ih =>
      intro s x h
      exact ih (revealStep s e) x (mem_visible_revealStep s e x h)

/-! ## Claim theorems -/

/-- C1: For every sequence of open/close triggers (toggle activation,
nav-link activation, outside click, Escape key), starting from the
consistent closed state, after each transition the menu-open flag, the
"active" class on the menu container, the "active" class on the toggle,
the toggle's `aria-expanded` attribute, and the body scroll-lock all agree:
either all indicate open or all indicate closed. -/
theorem c1_menu_invariant_consistency (evts : List MenuEvent) :
    consistentMenu (runMenu initClosed evts) := by
  have hrun : ∀ (l : List MenuEvent) (s : MenuState), consistentMenu s →
      consistentMenu (runMenu s l) := by
    intro l
    induction l with
    | nil => intro s hs; exact hs
    | cons e tl ih =>
        intro s hs
        exact ih (menuStep s e) (consistentMenu_menuStep s e hs)
  exact hrun evts initClosed (by decide)

/-- C2: the claim says every handler tolerates absent elements with a
graceful no-op, in particular the Escape-key handler when the menu
container exists with the "active" class but the toggle element is null.
The code violates this: on that page, the Escape keydown handler throws a
`TypeError` (`mobileMenuToggle.classList.remove` on null, script.js 179),
modelled here by the handler returning `none`. -/
theorem c2_escape_null_toggle_throws :
    keydownEscape
      { navLinks := some true, mobileMenuToggle := none,
        overflowHidden := false } "Escape" = none := by
  rfl

/-- C3: pressing Escape while the menu is open performs the closing
mutation (removes both "active" classes, sets `aria-expanded` to "false",
unlocks body scroll) and additionally moves focus to the toggle; pressing
Escape while the menu is closed leaves the state unchanged. -/
theorem c3_escape_close_and_focus (s : MenuState) :
    (s.menuActive = true →
      menuStep s .escapeKey =
        { menuActive := false, toggleActive := false, ariaExpanded := false,
          overflowHidden := false, focusMovedToToggle := true }) ∧
    (s.menuActive = false → menuStep s .escapeKey = s) := by
  constructor <;> intro h <;> simp [menuStep, closeMenu, h]

theorem c3_escape_close_and_focus_witness :
    menuStep ⟨true, true, true, true, false⟩ .escapeKey =
      ⟨false, false, false, false, true⟩ ∧
    menuStep initClosed .escapeKey = initClosed := by
  constructor
  · exact (c3_escape_close_and_focus ⟨true, true, true, true, false⟩).1 rfl
  · exact (c3_escape_close_and_focus initClosed).2 rfl

/-- C4: while the menu is open, Tab (without Shift) with focus on the last
focusable menu element prevents default and focuses the first; Shift+Tab
with focus on the first prevents default and focuses the last; while the
menu is closed every keydown in the menu is left to the browser (no
preventDefault, no focus call). -/
theorem c4_focus_trap (focusables : List Nat) (a : Nat) :
    (∀ (key : String) (shiftKey : Bool),
      trapKeydown false focusables a key shiftKey = (false, none)) ∧
    (focusables.get? (focusables.length - 1) = some a →
      trapKeydown true focusables a "Tab" false = (true, focusables.get? 0)) ∧
    (focusables.get? 0 = some a →
      trapKeydown true focusables a "Tab" true =
        (true, focusables.get? (focusables.length - 1))) := by
  refine ⟨fun key shiftKey => by simp [trapKeydown], ?_, ?_⟩
  · intro h
    simp only [List.get?_eq_getElem?] at h
    simp [trapKeydown, h]
  · intro h
    simp only [List.get?_eq_getElem?] at h
    simp [trapKeydown, h]

theorem c4_focus_trap_witness :
    trapKeydown false [10, 20, 30] 20 "Tab" false = (false, none) ∧
    trapKeydown true [10, 20, 30] 30 "Tab" false = (true, some 10) ∧
    trapKeydown true [10, 20, 30] 10 "Tab" true = (true, some 30) := by
  refine ⟨(c4_focus_trap [10, 20, 30] 20).1 "Tab" false, ?_, ?_⟩
  · exact (c4_focus_trap [10, 20, 30] 30).2.1 (by decide)
  · exact (c4_focus_trap [10, 20, 30] 10).2.2 (by decide)

/-- C5: activating an anchor link whose href names an existing element
prevents default and requests a scroll whose target top equals the
element's viewport-relative top plus the current vertical scroll offset
minus 80. -/
theorem c5_smooth_scroll_target (qs : String → Option Int) (y top : Int)
    (href : String) (h1 : href ≠ "#") (h2 : href ≠ "")
    (h3 : qs href = some top) :
    smoothScrollClick qs y href = (true, some (top + y - 80)) := by
  simp [smoothScrollClick, h1, h2, h3]

theorem c5_smooth_scroll_target_witness :
    smoothScrollClick
      (fun s => if s = "#section1" then some 200 else none) 1000 "#section1" =
      (true, some 1120) := by
  have h := c5_smooth_scroll_target
    (fun s => if s = "#section1" then some 200 else none) 1000 200 "#section1"
    (by decide) (by decide) (by simp)
  simpa using h

/-- C6: an anchor link whose href is "#" or "" never triggers
preventDefault or a scroll request; an href with no matching target also
performs no mutation; preventDefault happens only when a target exists. -/
theorem c6_bare_or_missing_anchor (qs : String → Option Int) (y : Int)
    (href : String) :
    smoothScrollClick qs y "#" = (false, none) ∧
    smoothScrollClick qs y "" = (false, none) ∧
    (qs href = none → smoothScrollClick qs y href = (false, none)) ∧
    ((smoothScrollClick qs y href).1 = true → ∃ top, qs href = some top) := by
  refine ⟨by simp [smoothScrollClick], by simp [smoothScrollClick], ?_, ?_⟩
  · intro h
    by_cases hb : href = "#" ∨ href = "" <;> simp [smoothScrollClick, hb, h]
  · intro h
    by_cases hb : href = "#" ∨ href = ""
    · simp [smoothScrollClick, hb] at h
    · rcases hq : qs href with _ | top
      · simp [smoothScrollClick, hb, hq] at h
      · exact ⟨top, rfl⟩

theorem c6_bare_or_missing_anchor_witness :
    smoothScrollClick (fun _ => none) 0 "#" = (false, none) ∧
    smoothScrollClick (fun _ => none) 0 "#missing" = (false, none) ∧
    ∃ top, (fun s => if s = "#x" then some (5 : Int) else none) "#x" =
      some top := by
  refine ⟨(c6_bare_or_missing_anchor (fun _ => none) 0 "#missing").1, ?_, ?_⟩
  · exact (c6_bare_or_missing_anchor (fun _ => none) 0 "#missing").2.2.1 rfl
  · exact (c6_bare_or_missing_anchor
      (fun s => if s = "#x" then some (5 : Int) else none) 0 "#x").2.2.2 rfl

/-- C7: after any scroll event the navbar carries the "scrolled" class
exactly when the current offset is strictly greater than 50: offset 50
leaves it absent, 51 adds it, any offset at or below 50 removes it, and
re-applying the same offset is a no-op in effect. -/
theorem c7_navbar_threshold (s : NavbarState) (c : Nat) :
    ((navbarScrollStep s c).scrolled = true ↔ scrollThreshold < c) ∧
    (navbarScrollStep s 50).scrolled = false ∧
    (navbarScrollStep s 51).scrolled = true ∧
    (c ≤ 50 → (navbarScrollStep s c).scrolled = false) ∧
    navbarScrollStep (navbarScrollStep s c) c = navbarScrollStep s c := by
  refine ⟨?_, by simp [navbarScrollStep, scrollThreshold], ?_, ?_, ?_⟩
  · simp [navbarScrollStep]
  · simp [navbarScrollStep, scrollThreshold]
  · intro h
    simp [navbarScrollStep, scrollThreshold]
    omega
  · simp [navbarScrollStep]

theorem c7_navbar_threshold_witness :
    (navbarScrollStep ⟨true, 0⟩ 50).scrolled = false :=
  (c7_navbar_threshold ⟨true, 0⟩ 50).2.2.2.1 (by decide)

/-- C8 counterexample: the claim states that once the "visible" class is
added the element is unobserved, but `checkInitialView` (script.js 249-257)
adds "visible" to an element in the viewport without unobserving it: after
the initial check on an observed element 0, element 0 carries "visible" and
is still observed. -/
theorem c8_initial_check_keeps_observed :
    0 ∈ (revealStep ⟨[], [0]⟩ (.initialCheck [0] (fun _ => true))).visible ∧
    0 ∈ (revealStep ⟨[], [0]⟩ (.initialCheck [0] (fun _ => true))).observed := by
  constructor <;> decide

/-- C8 (amended): each animatable element transitions to visible at most
once and the transition is never reverted — once the element carries
"visible", every further intersection, initial-view check, or scroll event
leaves it visible; an element revealed through the observer callback is
moreover unobserved at that moment (an element revealed by the initial
viewport check may stay observed until its first intersection, which adds
no further change to its revealed state). -/
theorem c8_reveal_monotone_once (s : RevealState) (evts : List RevealEvent)
    (x : Nat) :
    (x ∈ s.visible → x ∈ (runReveal s evts).visible) ∧
    (s.observed.Nodup →
      x ∈ (revealStep s (.intersect x true)).visible ∧
      x ∉ (revealStep s (.intersect x true)).observed) := by
  refine ⟨fun h => mem_visible_runReveal evts s x h, fun hnd => ⟨?_, ?_⟩⟩
  · simpa [revealStep] using mem_addClassVisible_self s.visible x
  · simp only [revealStep, if_pos rfl]
    intro hmem
    exact (List.Nodup.mem_erase_iff hnd).mp hmem |>.1 rfl

theorem c8_reveal_monotone_once_witness :
    5 ∈ (runReveal ⟨[5], [7]⟩ [.intersect 7 true, .scroll]).visible ∧
    (7 ∈ (revealStep ⟨[5], [7]⟩ (.intersect 7 true)).visible ∧
      7 ∉ (revealStep ⟨[5], [7]⟩ (.intersect 7 true)).observed) := by
  exact ⟨(c8_reveal_monotone_once ⟨[5], [7]⟩ [.intersect 7 true, .scroll] 5).1
      (by decide),
    (c8_reveal_monotone_once ⟨[5], [7]⟩ [] 7).2 (by decide)⟩

/-- C9: when IntersectionObserver is unavailable, scroll-animation setup
immediately adds the "visible" class to every candidate element and
creates no observer. -/
theorem c9_fallback_all_visible (elems : List Nat) (x : Nat) :
    (initScrollAnimations false elems).2 = false ∧
    (x ∈ elems → x ∈ (initScrollAnimations false elems).1.visible) := by
  constructor
  · rfl
  · intro h
    simpa [initScrollAnimations] using
      mem_foldl_addClassVisible elems [] x (Or.inr h)

theorem c9_fallback_all_visible_witness :
    (initScrollAnimations false [3, 4]).2 = false ∧
    3 ∈ (initScrollAnimations false [3, 4]).1.visible :=
  ⟨(c9_fallback_all_visible [3, 4] 3).1,
   (c9_fallback_all_visible [3, 4] 3).2 (by decide)⟩

/-- C10: the navbar scroll handler's result is determined solely by the
current vertical scroll offset — two scroll events observing the same
offset produce the same state (in particular the same "scrolled" class)
regardless of the preceding scroll history, since the stored `lastScroll`
value is written but never read. -/
theorem c10_navbar_history_independent (s1 s2 : NavbarState) (c : Nat) :
    navbarScrollStep s1 c = navbarScrollStep s2 c := by
  rfl
